import Mathlib

/-!
Verification of the SmartFilterPro cycle tracker
(`custom_components/smartfilterpro/__init__.py`).

Shallow embedding conventions:
* A thermostat attribute mapping is represented by the two keys the code
  reads, each `Option String` (`attrs.get` of an absent key yields `None`;
  a non-string `fan_mode` fails the `isinstance(fan_mode, str)` check and
  behaves exactly like an absent one, so `Option String` captures every
  distinguishable case).  The Python guard `if not attrs` (empty dict)
  returns the same value as the fall-through for absent keys, so it needs no
  separate representation.
* Timestamps (`datetime` values) are integer seconds since the epoch
  (`Int`).  `datetime.isoformat` / `datetime.fromisoformat` round-trip
  exactly in the source, so an ISO-8601 string in the persisted blob or a
  payload is represented by the instant it denotes; a corrupted
  (unparseable) persisted value, which makes `fromisoformat` raise into the
  `except` handler, is represented by an inner `none`.
-/

/-- `ACTIVE_ACTIONS` from the source: hvac_action values considered active. -/
def ACTIVE_ACTIONS : List String := ["heating", "cooling", "fan"]

/-- `FAN_ACTIVE_MODES` from the source: fan modes that indicate air is moving
even if hvac_action is "idle". -/
def FAN_ACTIVE_MODES : List String := ["on", "on_high", "circulate"]

/-- `MAX_RUNTIME_SECONDS` from the source: maximum reasonable runtime (24 h). -/
def MAX_RUNTIME_SECONDS : Int := 86400

/-- Python `str.strip()`: drop whitespace from both ends.  (ASCII whitespace;
every value the code compares against is ASCII.) -/
def py_strip (s : String) : String :=
  ⟨((s.data.dropWhile Char.isWhitespace).reverse.dropWhile Char.isWhitespace).reverse⟩

/-- Python `str.lower()` (ASCII case mapping; every value the code compares
against is ASCII). -/
def py_lower (s : String) : String :=
  ⟨s.data.map Char.toLower⟩

/-- The attribute keys of a climate snapshot that the tracker reads. -/
structure Attrs where
  hvac_action : Option String
  fan_mode : Option String
deriving Repr, DecidableEq

/-- `_attrs_is_active(attrs)` from the source: true if `hvac_action` is in
`ACTIVE_ACTIONS`, or `hvac_action == "idle"` and the trimmed lowercased
`fan_mode` string is in `FAN_ACTIVE_MODES`; all other cases are inactive. -/
def attrs_is_active (attrs : Attrs) : Bool :=
  let hvac_action := attrs.hvac_action
  if (match hvac_action with
      | some a => a ∈ ACTIVE_ACTIONS
      | none => False : Bool) then
    true
  else if hvac_action = some "idle" then
    match attrs.fan_mode with
    | some fan_mode => (py_lower (py_strip fan_mode) ∈ FAN_ACTIVE_MODES : Bool)
    | none => false
  else
    false

/-- `_classify_mode(attrs)` from the source: returns one of
"heating" | "cooling" | "fanonly" | "idle". -/
def classify_mode (attrs : Attrs) : String :=
  let hvac_action := attrs.hvac_action
  if hvac_action = some "heating" then "heating"
  else if hvac_action = some "cooling" then "cooling"
  else if hvac_action = some "fan" then "fanonly"
  else if hvac_action = some "idle" then
    match attrs.fan_mode with
    | some fan_mode =>
        if (py_lower (py_strip fan_mode) ∈ FAN_ACTIVE_MODES : Bool) then "fanonly" else "idle"
    | none => "idle"
  else "idle"

/-- `_calculate_runtime_seconds(start_time, end_time)` from the source:
0 when a timestamp is missing, the delta clamped to `[0, MAX_RUNTIME_SECONDS]`
otherwise.  (`datetime` objects are always truthy, so the Python guard
`if not start_time or not end_time` is exactly a `None` check.) -/
def calculate_runtime_seconds (start_time end_time : Option Int) : Int :=
  match start_time, end_time with
  | some s, some e =>
      let delta_seconds := e - s
      if delta_seconds < 0 then 0
      else if delta_seconds > MAX_RUNTIME_SECONDS then MAX_RUNTIME_SECONDS
      else delta_seconds
  | _, _ => 0

/-- Claim C1: `_attrs_is_active` returns true exactly when `hvac_action` is one
of heating/cooling/fan (regardless of fan_mode), or `hvac_action` is "idle" and
`fan_mode` is a string whose trimmed lowercased form is one of
on/on_high/circulate; every other input (empty mapping, absent or null
hvac_action, "off", unrecognized values) yields false. -/
theorem attrs_is_active_characterization (attrs : Attrs) :
    attrs_is_active attrs = true ↔
      ((attrs.hvac_action = some "heating" ∨ attrs.hvac_action = some "cooling" ∨
        attrs.hvac_action = some "fan") ∨
       (attrs.hvac_action = some "idle" ∧
        ∃ fm, attrs.fan_mode = some fm ∧
          (py_lower (py_strip fm) = "on" ∨ py_lower (py_strip fm) = "on_high" ∨
           py_lower (py_strip fm) = "circulate"))) := by
  obtain ⟨ha, hf⟩ := attrs
  cases ha with
  | none => simp [attrs_is_active]
  | some a =>
      cases hf with
      | none =>
          simp only [attrs_is_active, ACTIVE_ACTIONS]
          by_cases h : a ∈ (["heating", "cooling", "fan"] : List String) <;>
            simp_all [List.mem_cons]
      | some fm =>
          simp only [attrs_is_active, ACTIVE_ACTIONS, FAN_ACTIVE_MODES]
          by_cases h : a ∈ (["heating", "cooling", "fan"] : List String)
          · simp_all [List.mem_cons]
          · by_cases hi : a = "idle" <;>
              simp_all [List.mem_cons]

/-- Claim C8: `_classify_mode` returns "heating"/"cooling"/"fanonly" for the
corresponding hvac_action values, "fanonly" for idle with an actively
circulating fan, and "idle" in every other case. -/
theorem classify_mode_characterization (attrs : Attrs) :
    classify_mode attrs =
      (if attrs.hvac_action = some "heating" then "heating"
       else if attrs.hvac_action = some "cooling" then "cooling"
       else if attrs.hvac_action = some "fan" then "fanonly"
       else if attrs.hvac_action = some "idle" ∧
              (∃ fm, attrs.fan_mode = some fm ∧
                (py_lower (py_strip fm) = "on" ∨ py_lower (py_strip fm) = "on_high" ∨
                 py_lower (py_strip fm) = "circulate")) then "fanonly"
       else "idle") := by
  obtain ⟨ha, hf⟩ := attrs
  cases ha with
  | none => simp [classify_mode]
  | some a =>
      cases hf with
      | none =>
          simp only [classify_mode]
          split_ifs with h1 h2 h3 h4 h5 <;> simp_all
      | some fm =>
          by_cases h1 : a = "heating" <;> by_cases h2 : a = "cooling" <;>
            by_cases h3 : a = "fan" <;> by_cases h4 : a = "idle" <;>
            by_cases h5 : py_lower (py_strip fm) ∈ (["on", "on_high", "circulate"] : List String) <;>
            simp_all [classify_mode, FAN_ACTIVE_MODES, List.mem_cons]

/-- Claim C10: the boolean activity signal and the mode classification agree:
`_attrs_is_active attrs` is true exactly when `_classify_mode attrs` is not
"idle". -/
theorem attrs_is_active_iff_classify_mode_ne_idle (attrs : Attrs) :
    attrs_is_active attrs = true ↔ classify_mode attrs ≠ "idle" := by
  obtain ⟨ha, hf⟩ := attrs
  cases ha with
  | none => simp [attrs_is_active, classify_mode]
  | some a =>
      cases hf with
      | none =>
          by_cases h1 : a = "heating" <;> by_cases h2 : a = "cooling" <;>
            by_cases h3 : a = "fan" <;> by_cases h4 : a = "idle" <;>
            simp_all [attrs_is_active, classify_mode, ACTIVE_ACTIONS, List.mem_cons]
      | some fm =>
          by_cases h1 : a = "heating" <;> by_cases h2 : a = "cooling" <;>
            by_cases h3 : a = "fan" <;> by_cases h4 : a = "idle" <;>
            by_cases h5 : py_lower (py_strip fm) ∈ (["on", "on_high", "circulate"] : List String) <;>
            simp_all [attrs_is_active, classify_mode, ACTIVE_ACTIONS, FAN_ACTIVE_MODES,
              List.mem_cons]

/-- Claim C5: `_calculate_runtime_seconds` always lands in `[0, 86400]`:
0 when a timestamp is missing, 0 for a negative delta, the delta itself
when it is in range (in particular exactly 86400 is kept), and the cap
86400 for anything larger. -/
theorem calculate_runtime_seconds_spec (start_time end_time : Option Int) :
    (0 ≤ calculate_runtime_seconds start_time end_time ∧
     calculate_runtime_seconds start_time end_time ≤ 86400) ∧
    ((start_time = none ∨ end_time = none) →
      calculate_runtime_seconds start_time end_time = 0) ∧
    (∀ s e, start_time = some s → end_time = some e →
      ((e - s < 0 → calculate_runtime_seconds start_time end_time = 0) ∧
       (86400 < e - s → calculate_runtime_seconds start_time end_time = 86400) ∧
       (0 ≤ e - s → e - s ≤ 86400 →
         calculate_runtime_seconds start_time end_time = e - s))) := by
  match start_time, end_time with
  | none, _ => simp [calculate_runtime_seconds]
  | some s, none => simp [calculate_runtime_seconds]
  | some s, some e =>
      simp only [calculate_runtime_seconds, MAX_RUNTIME_SECONDS]
      refine ⟨?_, ?_, ?_⟩
      · split_ifs with h1 h2 <;> omega
      · rintro (h | h) <;> simp_all
      · rintro s2 e2 rfl2 rfl2b
        injection rfl2 with hs
        injection rfl2b with he
        subst hs; subst he
        refine ⟨?_, ?_, ?_⟩ <;> intro h <;> split_ifs <;> omega

/-- Witness for C5: the boundary values from the spec evaluate as claimed
(delta 86400 kept, 86401 capped, -5 corrected to 0). -/
theorem calculate_runtime_seconds_spec_witness :
    calculate_runtime_seconds (some 0) (some 86400) = 86400 ∧
    calculate_runtime_seconds (some 0) (some 86401) = 86400 ∧
    calculate_runtime_seconds (some 5) (some 0) = 0 := by
  refine ⟨?_, ?_, ?_⟩
  · have h := (calculate_runtime_seconds_spec (some 0) (some 86400)).2.2 0 86400 rfl rfl
    exact h.2.2 (by norm_num) (by norm_num)
  · have h := (calculate_runtime_seconds_spec (some 0) (some 86401)).2.2 0 86401 rfl rfl
    exact h.2.1 (by norm_num)
  · have h := (calculate_runtime_seconds_spec (some 5) (some 0)).2.2 5 0 rfl rfl
    exact h.1 (by norm_num)

/-- The tracker's `run_state` dict (`RuntimeTracker.__init__`). -/
structure RunState where
  active_since : Option Int
  last_action : Option String
  is_active : Bool
  last_active_mode : Option String
deriving Repr, DecidableEq

/-- The initial `run_state` set up in `RuntimeTracker.__init__`. -/
def initial_run_state : RunState :=
  { active_since := none, last_action := none, is_active := false,
    last_active_mode := none }

/-- The persisted JSON blob.  `active_since_iso`: outer `none` = key absent;
inner `none` = a value on which `datetime.fromisoformat` raises (corrupted),
otherwise the instant the ISO-8601 string denotes. -/
structure Blob where
  active_since_iso : Option (Option Int)
  last_action : Option String
  is_active : Option Bool
  last_active_mode : Option String
deriving Repr, DecidableEq

/-- `RuntimeTracker.load_state` from the source, applied to the freshly
initialized `run_state`: `none` input models `async_load()` returning `None`
(`or {}` turns it into an empty dict).  `active_since` is restored only when
the stored instant parses and `0 <= now - stored_time < 3600`; the other three
fields are overwritten from the blob (`bool(data.get("is_active", False))`,
plain `data.get` for the rest) with no validation. -/
def load_state (data : Option Blob) (now : Int) : RunState :=
  let d : Blob := match data with
    | some d => d
    | none => { active_since_iso := none, last_action := none,
                is_active := none, last_active_mode := none }
  let active_since : Option Int :=
    match d.active_since_iso with
    | some (some stored_time) =>
        let time_diff := now - stored_time
        if 0 ≤ time_diff ∧ time_diff < 3600 then some stored_time
        else none
    | some none => none
    | none => none
  { active_since := active_since,
    last_action := d.last_action,
    is_active := d.is_active.getD false,
    last_active_mode := d.last_active_mode }

/-- `RuntimeTracker.save_state` from the source: persists the three plain
fields always, and `active_since_iso` only when `active_since` is set
(a `datetime` is always truthy, so the guard is exactly a `None` check). -/
def save_state (rs : RunState) : Blob :=
  { active_since_iso := match rs.active_since with
      | some t => some (some t)
      | none => none,
    last_action := rs.last_action,
    is_active := some rs.is_active,
    last_active_mode := rs.last_active_mode }

/-- Counterexample to claim C3 as stated: at an elapsed time of exactly
3600 s — inside the claimed closed interval [0, 3600] — the code does NOT
restore `active_since` (its guard is `0 <= time_diff < 3600`, strict at the
upper end): saving `active_since = 0` and loading at `now = 3600` leaves
`active_since` null. -/
theorem load_after_save_at_3600_not_restored :
    ((0 : Int) ≤ 3600 - 0 ∧ (3600 : Int) - 0 ≤ 3600) ∧
    (load_state
        (some (save_state
          { active_since := some 0, last_action := none, is_active := true,
            last_active_mode := some "heating" })) 3600).active_since = none := by
  constructor
  · constructor <;> norm_num
  · rfl

/-- Claim C3, amended: the restore window is the half-open interval
[0, 3600) — save-then-load restores the identical `active_since` exactly when
`0 ≤ now - active_since < 3600`, and leaves it null when the elapsed time is
negative or ≥ 3600 s (in particular after 7200 s). -/
theorem load_save_roundtrip (rs : RunState) (t now : Int)
    (h : rs.active_since = some t) :
    ((0 ≤ now - t ∧ now - t < 3600) →
      (load_state (some (save_state rs)) now).active_since = some t) ∧
    ((now - t < 0 ∨ 3600 ≤ now - t) →
      (load_state (some (save_state rs)) now).active_since = none) := by
  constructor <;> intro hw <;>
    simp only [load_state, save_state, h] <;>
    split_ifs <;> first | rfl | omega

/-- Witness for the amended C3: a cycle start persisted 120 s ago is restored
identically; one persisted 7200 s ago is discarded. -/
theorem load_save_roundtrip_witness :
    (load_state
        (some (save_state
          { active_since := some 100, last_action := none, is_active := true,
            last_active_mode := some "cooling" })) 220).active_since = some 100 ∧
    (load_state
        (some (save_state
          { active_since := some 0, last_action := none, is_active := true,
            last_active_mode := some "cooling" })) 7200).active_since = none := by
  constructor
  · exact (load_save_roundtrip
      { active_since := some 100, last_action := none, is_active := true,
        last_active_mode := some "cooling" } 100 220 rfl).1 (by norm_num)
  · exact (load_save_roundtrip
      { active_since := some 0, last_action := none, is_active := true,
        last_active_mode := some "cooling" } 0 7200 rfl).2 (by norm_num)

/-- The telemetry payload built by `_build_payload`, restricted to the fields
the tracker computes.  Pure caller-supplied passthrough identity fields
(`user_id`, `hvac_id`, `ha_entity_id`, `device_name`, manufacturer/model,
temperatures, `hvac_mode`, `raw`) are copied verbatim from arguments or the
raw attribute dict and are omitted.  `cycle_start_ts` / `cycle_end_ts` hold
the instant the ISO string denotes (see the ISO convention above). -/
structure Payload where
  ts : Int
  hvac_status : Option String
  fan_mode : Option String
  isActive : Bool
  runtime_seconds : Option Int
  cycle_start_ts : Option Int
  cycle_end_ts : Option Int
  connected : Bool
  lastMode : Option String
  lastIsHeating : Bool
  lastIsCooling : Bool
  lastIsFanOnly : Bool
  lastEquipmentStatus : Option String
  isReachable : Bool
deriving Repr, DecidableEq

/-- `_build_payload` from the source (tracker-computed fields).  `last_mode`
is normalized by `(last_mode or "").strip().lower() if last_mode else None`:
`None` or `""` give `None`, otherwise trim-and-lowercase. -/
def build_payload (attrs : Attrs) (now : Int) (runtime_seconds : Option Int)
    (cycle_start cycle_end : Option Int) (connected : Bool)
    (last_mode : Option String) (is_reachable : Option Bool) : Payload :=
  let hvac_action := attrs.hvac_action
  let is_active := attrs_is_active attrs
  let lm : Option String := match last_mode with
    | some m => if m = "" then none else some (py_lower (py_strip m))
    | none => none
  { ts := now,
    hvac_status := hvac_action,
    fan_mode := attrs.fan_mode,
    isActive := is_active,
    runtime_seconds := runtime_seconds,
    cycle_start_ts := cycle_start,
    cycle_end_ts := cycle_end,
    connected := connected,
    lastMode := lm,
    lastIsHeating := lm == some "heating",
    lastIsCooling := lm == some "cooling",
    lastIsFanOnly := lm == some "fanonly",
    lastEquipmentStatus := lm,
    isReachable := match is_reachable with
      | some b => b
      | none => connected }

/-- A climate entity state object: the host-reported state string plus the
attribute dict.  (`entity_id` and `name` feed only omitted passthrough payload
fields.) -/
structure Snapshot where
  state : String
  attributes : Attrs
deriving Repr, DecidableEq

/-- `_is_climate_available(state)` from the source: `None` is unavailable, and
so is a state in `{STATE_UNKNOWN, STATE_UNAVAILABLE, "unavailable",
"unknown"}` (that set is just `{"unknown", "unavailable"}`). -/
def is_climate_available : Option Snapshot → Bool
  | none => false
  | some s => (s.state ∉ (["unknown", "unavailable"] : List String) : Bool)

/-- Result of one `_handle_state` call: the mutated `run_state`, the payload
handed to `_post` (if any), and whether `save_state` ran. -/
structure HandleResult where
  run_state : RunState
  payload : Option Payload
  saved : Bool
deriving Repr, DecidableEq

/-- `_handle_state(new_state)` from the source, as a function of the current
`run_state`, the incoming state object and the current time.  `connected` and
`is_reachable` are `_is_climate_available(new_state)` (true past the guard). -/
def handle_state (rs : RunState) (new_state : Option Snapshot) (now : Int) :
    HandleResult :=
  if ¬ is_climate_available new_state then
    { run_state := rs, payload := none, saved := false }
  else
    match new_state with
    | none => { run_state := rs, payload := none, saved := false }
    | some s =>
      let attrs := s.attributes
      let hvac_action := attrs.hvac_action
      let classified_mode := classify_mode attrs
      let is_active := attrs_is_active attrs
      let was_active := rs.is_active
      -- maintain last_active_mode so lastMode can be reported even while idle
      let rs1 :=
        if classified_mode = "heating" ∨ classified_mode = "cooling" ∨
            classified_mode = "fanonly" then
          { rs with last_active_mode := some classified_mode }
        else rs
      let connected := is_climate_available new_state
      let common_last_mode : Option String :=
        if classified_mode = "idle" then rs1.last_active_mode
        else some classified_mode
      if ¬ was_active ∧ is_active then
        -- cycle start
        let rs2 := { rs1 with active_since := some now }
        let payload :=
          build_payload attrs now none none none connected common_last_mode
            (some connected)
        { run_state := { rs2 with last_action := hvac_action,
                                  is_active := is_active },
          payload := some payload, saved := true }
      else if was_active ∧ ¬ is_active then
        -- cycle end
        let start := rs1.active_since
        let secs := calculate_runtime_seconds start (some now)
        -- `lm = run_state.get("last_active_mode") or (...)`: falsy is None or ""
        let lm : Option String :=
          match rs1.last_active_mode with
          | some m =>
              if m = "" then
                (if classified_mode = "heating" ∨ classified_mode = "cooling" ∨
                    classified_mode = "fanonly" then some classified_mode
                 else none)
              else some m
          | none =>
              if classified_mode = "heating" ∨ classified_mode = "cooling" ∨
                  classified_mode = "fanonly" then some classified_mode
              else none
        let payload :=
          build_payload attrs now (some secs) start (some now) connected lm
            (some connected)
        { run_state := { rs1 with active_since := none,
                                  last_action := hvac_action,
                                  is_active := is_active },
          payload := some payload, saved := true }
      else
        -- steady-state ping
        let payload :=
          build_payload attrs now none none none connected common_last_mode
            (some connected)
        { run_state := { rs1 with last_action := hvac_action,
                                  is_active := is_active },
          payload := some payload, saved := true }

/-- The startup seeding block of `async_setup_entry` (the mutations applied to
`run_state` from the current live state before the primed `_handle_state`
call): skipped when there is no live state or it is unavailable; otherwise
seeds `last_active_mode`, `last_action`, `is_active`, and sets
`active_since = now` only when none was restored and the snapshot is active. -/
def seed_startup (rs : RunState) (st : Option Snapshot) (now : Int) : RunState :=
  match st with
  | none => rs
  | some s =>
      if is_climate_available (some s) then
        let attrs := s.attributes
        let classified_mode := classify_mode attrs
        let rs1 :=
          if classified_mode = "heating" ∨ classified_mode = "cooling" ∨
              classified_mode = "fanonly" then
            { rs with last_active_mode := some classified_mode }
          else rs
        let current_active := attrs_is_active attrs
        let rs2 := { rs1 with last_action := attrs.hvac_action,
                              is_active := current_active }
        if rs2.active_since = none ∧ current_active then
          { rs2 with active_since := some now }
        else rs2
      else rs

/-- Helper: an inactive attribute set classifies as "idle". -/
theorem classify_mode_idle_of_inactive (a : Attrs)
    (h : attrs_is_active a = false) : classify_mode a = "idle" := by
  obtain ⟨ha, hf⟩ := a
  cases ha with
  | none => simp [classify_mode]
  | some x =>
      cases hf with
      | none =>
          by_cases h1 : x = "heating" <;> by_cases h2 : x = "cooling" <;>
            by_cases h3 : x = "fan" <;> by_cases h4 : x = "idle" <;>
            simp_all [attrs_is_active, classify_mode, ACTIVE_ACTIONS, List.mem_cons]
      | some fm =>
          by_cases h1 : x = "heating" <;> by_cases h2 : x = "cooling" <;>
            by_cases h3 : x = "fan" <;> by_cases h4 : x = "idle" <;>
            by_cases h5 : py_lower (py_strip fm) ∈ (["on", "on_high", "circulate"] : List String) <;>
            simp_all [attrs_is_active, classify_mode, ACTIVE_ACTIONS, FAN_ACTIVE_MODES,
              List.mem_cons]

/-- Helper: after processing an available snapshot, the stored `is_active`
flag equals the snapshot's activity classification. -/
theorem handle_state_sets_is_active (rs : RunState) (s : Snapshot) (now : Int)
    (h : is_climate_available (some s) = true) :
    (handle_state rs (some s) now).run_state.is_active =
      attrs_is_active s.attributes := by
  simp only [handle_state, h]
  by_cases hw : rs.is_active <;> by_cases hi : attrs_is_active s.attributes <;>
    split_ifs <;> simp_all

/-- Helper: normalizing the three active mode strings is the identity. -/
theorem py_norm_heating : py_lower (py_strip "heating") = "heating" := rfl

/-- Helper: normalizing "cooling" is the identity. -/
theorem py_norm_cooling : py_lower (py_strip "cooling") = "cooling" := rfl

/-- Helper: normalizing "fanonly" is the identity. -/
theorem py_norm_fanonly : py_lower (py_strip "fanonly") = "fanonly" := rfl

/-- Claim C6: a snapshot whose host-reported state is "unavailable" or
"unknown" (or whose state object is absent) is ignored entirely: no payload,
no mutation of any `run_state` field, no persistence write. -/
theorem handle_state_unavailable_noop (rs : RunState) (st : Option Snapshot)
    (now : Int)
    (h : st = none ∨ ∃ s, st = some s ∧
      (s.state = "unavailable" ∨ s.state = "unknown")) :
    handle_state rs st now =
      { run_state := rs, payload := none, saved := false } := by
  have havail : is_climate_available st = false := by
    rcases h with rfl | ⟨s, rfl, hs | hs⟩
    · rfl
    · simp [is_climate_available, hs, List.mem_cons]
    · simp [is_climate_available, hs, List.mem_cons]
  simp [handle_state, havail]

/-- Witness for C6: a concrete "unavailable" snapshot is skipped outright. -/
theorem handle_state_unavailable_noop_witness :
    handle_state initial_run_state
        (some { state := "unavailable",
                attributes := { hvac_action := some "heating", fan_mode := none } })
        0 =
      { run_state := initial_run_state, payload := none, saved := false } :=
  handle_state_unavailable_noop initial_run_state _ 0 (Or.inr ⟨_, rfl, Or.inl rfl⟩)

/-- Claim C2: on a cycle end (available snapshot, `was_active` and not
`is_active`) with a stored cycle start, the emitted payload carries the
clamped elapsed runtime, the stored start instant as `cycle_start_ts`, `now`
as `cycle_end_ts`, and the stored `last_active_mode` as `lastMode`; afterwards
`active_since` is cleared.  (`last_active_mode` ranges over the values the
data model admits.) -/
theorem handle_state_cycle_end (rs : RunState) (s : Snapshot) (now t : Int)
    (havail : is_climate_available (some s) = true)
    (hwas : rs.is_active = true)
    (hnow : attrs_is_active s.attributes = false)
    (hsince : rs.active_since = some t)
    (hlm : rs.last_active_mode = none ∨ rs.last_active_mode = some "heating" ∨
      rs.last_active_mode = some "cooling" ∨
      rs.last_active_mode = some "fanonly") :
    ∃ p, (handle_state rs (some s) now).payload = some p ∧
      p.runtime_seconds = some (calculate_runtime_seconds (some t) (some now)) ∧
      p.cycle_start_ts = some t ∧
      p.cycle_end_ts = some now ∧
      p.lastMode = rs.last_active_mode ∧
      (handle_state rs (some s) now).run_state.active_since = none := by
  have hcl : classify_mode s.attributes = "idle" :=
    classify_mode_idle_of_inactive s.attributes hnow
  rcases hlm with h | h | h | h <;>
    simp [handle_state, havail, hcl, hwas, hnow, hsince, h, build_payload,
      py_norm_heating, py_norm_cooling, py_norm_fanonly]

/-- Witness for C2 (spec scenario A's ending): heating cycle started at 0,
idle/fan-off snapshot at 600 s ends it with 600 s runtime and
lastMode "heating". -/
theorem handle_state_cycle_end_witness :
    ∃ p, (handle_state
        { active_since := some 0, last_action := some "heating",
          is_active := true, last_active_mode := some "heating" }
        (some { state := "heat",
                attributes := { hvac_action := some "idle",
                                fan_mode := some "off" } }) 600).payload = some p ∧
      p.runtime_seconds = some (calculate_runtime_seconds (some 0) (some 600)) ∧
      p.cycle_start_ts = some 0 ∧
      p.cycle_end_ts = some 600 ∧
      p.lastMode = some "heating" ∧
      (handle_state
        { active_since := some 0, last_action := some "heating",
          is_active := true, last_active_mode := some "heating" }
        (some { state := "heat",
                attributes := { hvac_action := some "idle",
                                fan_mode := some "off" } }) 600).run_state.active_since = none := by
  exact handle_state_cycle_end _ _ 600 0 (by decide) rfl (by decide) rfl
    (Or.inr (Or.inl rfl))

/-- Helper: a snapshot whose activity classification matches the stored
`is_active` flag is a steady-state ping: `active_since` is untouched and the
payload has null runtime and cycle fields. -/
theorem handle_state_steady (rs : RunState) (s : Snapshot) (now : Int)
    (h : is_climate_available (some s) = true)
    (heq : rs.is_active = attrs_is_active s.attributes) :
    (handle_state rs (some s) now).run_state.active_since = rs.active_since ∧
    ∃ p, (handle_state rs (some s) now).payload = some p ∧
      p.runtime_seconds = none ∧ p.cycle_start_ts = none ∧
      p.cycle_end_ts = none := by
  simp only [handle_state, h]
  by_cases hw : rs.is_active <;> by_cases hact : attrs_is_active s.attributes <;>
    split_ifs <;> simp_all [build_payload]

/-- Counterexample to claim C7 as stated: from the idle initial state, the
first of two identical active (heating) snapshots is a cycle start and DOES
change `active_since` (none becomes `now`), so "processing two consecutive
identical snapshots never changes `active_since`" fails for that first
processing. -/
theorem first_of_identical_pair_changes_active_since :
    is_climate_available
        (some { state := "heat",
                attributes := { hvac_action := some "heating", fan_mode := none } }) = true ∧
    (handle_state initial_run_state
        (some { state := "heat",
                attributes := { hvac_action := some "heating", fan_mode := none } })
        5).run_state.active_since ≠ initial_run_state.active_since := by
  constructor
  · decide
  · decide

/-- Claim C7, amended: after an available snapshot has been processed once,
processing the identical snapshot again is always a steady-state ping: it
leaves `active_since` unchanged and emits a payload with null
`runtime_seconds` and null cycle fields.  (The first of the two processings
may be a cycle boundary: a cycle start sets `active_since`, a cycle end
clears it and reports a non-null runtime.) -/
theorem second_identical_snapshot_is_steady (rs : RunState) (s : Snapshot)
    (n1 n2 : Int) (h : is_climate_available (some s) = true) :
    ((handle_state (handle_state rs (some s) n1).run_state
        (some s) n2).run_state.active_since =
      (handle_state rs (some s) n1).run_state.active_since) ∧
    (∃ p, (handle_state (handle_state rs (some s) n1).run_state
        (some s) n2).payload = some p ∧
      p.runtime_seconds = none ∧ p.cycle_start_ts = none ∧
      p.cycle_end_ts = none) := by
  exact handle_state_steady (handle_state rs (some s) n1).run_state s n2 h
    (handle_state_sets_is_active rs s n1 h)

/-- Witness for the amended C7: a heating snapshot processed twice from the
initial state; the second processing keeps `active_since` and pings with null
runtime. -/
theorem second_identical_snapshot_is_steady_witness :
    ((handle_state (handle_state initial_run_state
        (some { state := "heat",
                attributes := { hvac_action := some "heating", fan_mode := none } }) 5).run_state
        (some { state := "heat",
                attributes := { hvac_action := some "heating", fan_mode := none } })
        9).run_state.active_since =
      (handle_state initial_run_state
        (some { state := "heat",
                attributes := { hvac_action := some "heating", fan_mode := none } })
        5).run_state.active_since) ∧
    (∃ p, (handle_state (handle_state initial_run_state
        (some { state := "heat",
                attributes := { hvac_action := some "heating", fan_mode := none } }) 5).run_state
        (some { state := "heat",
                attributes := { hvac_action := some "heating", fan_mode := none } })
        9).payload = some p ∧
      p.runtime_seconds = none ∧ p.cycle_start_ts = none ∧
      p.cycle_end_ts = none) := by
  exact second_identical_snapshot_is_steady initial_run_state _ 5 9 (by decide)

/-- `active_since` is non-null exactly when the tracker believes a cycle is
in progress (the §3 invariant of the spec, as a predicate). -/
def run_state_consistent (rs : RunState) : Prop :=
  rs.active_since.isSome = rs.is_active

/-- Counterexample to claim C4 as stated: loading a persisted blob whose
`is_active` is true but whose `active_since_iso` is stale (7200 s old)
produces a reachable state — startup seeding is skipped when no live snapshot
is available — with `is_active` true and `active_since` null, violating the
claimed iff. -/
theorem stale_blob_breaks_active_since_iff :
    (seed_startup (load_state
        (some { active_since_iso := some (some 0), last_action := some "heating",
                is_active := some true, last_active_mode := some "heating" })
        7200) none 7200).is_active = true ∧
    (seed_startup (load_state
        (some { active_since_iso := some (some 0), last_action := some "heating",
                is_active := some true, last_active_mode := some "heating" })
        7200) none 7200).active_since = none := by
  constructor
  · decide
  · decide

/-- Claim C4, amended: the iff "`active_since` non-null ↔ `is_active`" holds
at initialization and is preserved by processing any snapshot; loading a
persisted blob does not re-establish it (a stale or inconsistent blob yields
a state violating it, and startup seeding repairs it only when a live active
snapshot is present). -/
theorem active_since_iff_is_active_preserved :
    run_state_consistent initial_run_state ∧
    ∀ rs st now, run_state_consistent rs →
      run_state_consistent (handle_state rs st now).run_state := by
  constructor
  · rfl
  · intro rs st now hinv
    by_cases havail : is_climate_available st = true
    · cases st with
      | none => simp [is_climate_available] at havail
      | some s =>
          by_cases hw : rs.is_active <;>
            by_cases hi : attrs_is_active s.attributes <;>
            simp_all [handle_state, run_state_consistent] <;>
            split_ifs <;> simp_all
    · have havail2 : is_climate_available st = false := by
        simpa using havail
      simpa [handle_state, havail2] using hinv

/-- Witness for the amended C4: the iff holds after processing a heating
snapshot from the (consistent) initial state. -/
theorem active_since_iff_is_active_preserved_witness :
    run_state_consistent (handle_state initial_run_state
      (some { state := "heat",
              attributes := { hvac_action := some "heating", fan_mode := none } })
      5).run_state := by
  exact active_since_iff_is_active_preserved.2 initial_run_state _ 5 rfl

/-- `last_active_mode` is null or one of the three active modes (the §3
invariant of the spec, as a predicate). -/
def last_active_mode_ok (rs : RunState) : Prop :=
  rs.last_active_mode = none ∨ rs.last_active_mode = some "heating" ∨
  rs.last_active_mode = some "cooling" ∨ rs.last_active_mode = some "fanonly"

/-- Counterexample to claim C9 as stated: `load_state` restores the persisted
`last_active_mode` with no validation, so loading a blob whose field holds
"idle" yields a reachable state whose `last_active_mode` IS "idle". -/
theorem loaded_blob_idle_last_active_mode :
    (load_state (some { active_since_iso := none, last_action := none,
                        is_active := some false,
                        last_active_mode := some "idle" })
        0).last_active_mode = some "idle" ∧
    ¬ last_active_mode_ok (load_state
        (some { active_since_iso := none, last_action := none,
                is_active := some false, last_active_mode := some "idle" }) 0) := by
  constructor
  · rfl
  · simp only [last_active_mode_ok]
    decide

/-- Claim C9, amended: `last_active_mode` is null or one of
heating/cooling/fanonly — never "idle" — at initialization, and both snapshot
processing and startup seeding preserve this; loading a persisted blob does
not (its `last_active_mode` field is restored unvalidated, so a blob holding
"idle" or any other unexpected value violates the invariant). -/
theorem last_active_mode_never_idle :
    last_active_mode_ok initial_run_state ∧
    (∀ rs st now, last_active_mode_ok rs →
      last_active_mode_ok (handle_state rs st now).run_state) ∧
    (∀ rs st now, last_active_mode_ok rs →
      last_active_mode_ok (seed_startup rs st now)) := by
  refine ⟨Or.inl rfl, ?_, ?_⟩
  · intro rs st now hinv
    by_cases havail : is_climate_available st = true
    · cases st with
      | none => simp [is_climate_available] at havail
      | some s =>
          simp only [handle_state, havail]
          split_ifs <;> simp_all [last_active_mode_ok]
    · have havail2 : is_climate_available st = false := by
        simpa using havail
      simpa [handle_state, havail2] using hinv
  · intro rs st now hinv
    cases st with
    | none => simpa [seed_startup] using hinv
    | some s =>
        by_cases havail : is_climate_available (some s) = true
        · simp only [seed_startup, havail]
          split_ifs <;> simp_all [last_active_mode_ok]
        · have havail2 : is_climate_available (some s) = false := by
            simpa using havail
          simpa [seed_startup, havail2] using hinv

/-- Witness for the amended C9: after a heating snapshot from the initial
state, `last_active_mode` is a legal value ("heating"). -/
theorem last_active_mode_never_idle_witness :
    last_active_mode_ok (handle_state initial_run_state
      (some { state := "heat",
              attributes := { hvac_action := some "heating", fan_mode := none } })
      5).run_state := by
  exact last_active_mode_never_idle.2.1 initial_run_state _ 5 (Or.inl rfl)
